import Mathlib

/-!
Shallow embedding of the component translation layer in
`src/saveload/details.rs` (the saveload details module of the `specs`
entity-component library).

Modelling conventions:
* `Entity` is an opaque handle; it is embedded as `Nat`.
* A per-type component storage is external to the analysed unit; per the
  design document's external interface (`get`, `insert`, `remove`) it is
  embedded as a partial map `Entity → Option C`, where `insert` overwrites
  and `remove` deletes.
* The Rust lookup closures (`FnMut(Entity) -> Option<M>` and
  `FnMut(M) -> Option<Entity>`) are embedded as pure functions.
* The trait `SaveLoadComponent<M>` becomes a structure bundling the
  associated types `Data` and `Error` with the `save`/`load` functions.
* The macro `impl_components!` generates one implementation of the
  `Components` trait per tuple arity (0 up to 15).  A heterogeneous tuple
  of component types, each with a conversion of its error type into the
  shared bundle error `E` (the `E: From<$a::Error>` bound), is embedded as
  a `List (BundleElem M E)`; the tuple of `Option<Data>` payload slots and
  the tuples of storages become types computed by recursion on that list.
  `Components.save` and `Components.load` are then single recursive
  functions covering every arity at once; each cons step is a literal
  transcription of the per-element code emitted by the macro body.
* Both operations are written in state-passing style over the storages so
  that their effect (or absence of effect) on the storages is part of the
  returned value: the Rust `save` only holds `&ReadStorages` and can only
  call `get`, hence its embedding threads the storages through unchanged;
  `load` holds `&mut WriteStorages` and its embedding records the
  `insert`/`remove` calls the loop performs.
-/

/-- Entities are opaque handles; embedded as naturals. -/
abbrev Entity : Type := Nat

/-- External per-component-type storage, seen through the minimal
read/write capability the design consumes: a partial map from entities to
component values. -/
def Storage (C : Type) : Type := Entity → Option C

/-- The read primitive of the external storage engine. -/
def Storage.get {C : Type} (s : Storage C) (e : Entity) : Option C := s e

/-- The write primitive of the external storage engine: overwrites any
prior instance attached to the entity. -/
def Storage.insert {C : Type} (s : Storage C) (e : Entity) (c : C) : Storage C :=
  fun x => if x = e then some c else s x

/-- The removal primitive of the external storage engine. -/
def Storage.remove {C : Type} (s : Storage C) (e : Entity) : Storage C :=
  fun x => if x = e then none else s x

/-- Modelled from the spec: the uninhabited error type `NoError` lives in
`error.rs`, which is not under `src/`; the design document describes it as
"uninhabited ... by construction can never be produced", so it is embedded
as the empty type. -/
def NoError : Type := Empty

/-- Embedding of the trait `SaveLoadComponent<M>` for a component type
`C`: the associated serializable representation `Data`, the associated
error type `Error`, and the two conversion functions taking the
entity-to-marker (resp. marker-to-entity) lookup. -/
structure SaveLoadComponent (M : Type) (C : Type) : Type 1 where
  Data : Type
  Error : Type
  save : C → (Entity → Option M) → Except Error Data
  load : Data → (M → Option Entity) → Except Error C

/-- The blanket implementation `impl<C, M> SaveLoadComponent<M> for C
where C: Component + DeserializeOwned + Serialize + Copy`: `Data = Self`,
`Error = NoError`, `save` returns `Ok(*self)` and `load` returns
`Ok(data)`, both ignoring the lookup. -/
def passthroughCodec (M C : Type) : SaveLoadComponent M C where
  Data := C
  Error := NoError
  save := fun c _ids => Except.ok c
  load := fun d _ids => Except.ok d

/-- One element of a component tuple used with the `Components<M, E>`
trait: a component type `C` with its codec, together with the
`E: From<C::Error>` conversion demanded by the macro-generated impl. -/
structure BundleElem (M E : Type) : Type 1 where
  C : Type
  codec : SaveLoadComponent M C
  toE : codec.Error → E

/-- The associated type `Components::Data` for a tuple of component
types: one `Option<Data>` slot per element, in tuple order. -/
def BundleData {M E : Type} : List (BundleElem M E) → Type
  | [] => PUnit
  | t :: ts => Option t.codec.Data × BundleData ts

/-- The `Storages::ReadStorages` / `Storages::WriteStorages` tuple for a
tuple of component types: one storage per element, in tuple order (the
embedding does not distinguish the read-capability handle from the
write-capability handle; the operations themselves do). -/
def BundleStorages {M E : Type} : List (BundleElem M E) → Type
  | [] => PUnit
  | t :: ts => Storage t.C × BundleStorages ts

/-- The per-element expression of the macro body of `Components::save`:
`$b.get(entity).map(|c| c.save(&mut ids).map(Some)).unwrap_or(Ok(None))?`,
with the `?` performing the `From<$a::Error>`-conversion into `E`. -/
def slotSave {M E : Type} (t : BundleElem M E) (st : Storage t.C) (entity : Entity)
    (ids : Entity → Option M) : Except E (Option t.codec.Data) :=
  Except.mapError t.toE
    (((st.get entity).map (fun c => (t.codec.save c ids).map some)).getD (Except.ok none))

/-- Embedding of `Components::save` (macro-generated for every arity): the
tuple expression evaluates its elements left to right and the first `?`
failure aborts it.  State-passing over the storages; `save` only ever
calls `get`, so each step hands the storages back as received. -/
def Components.save {M E : Type} :
    (ts : List (BundleElem M E)) → Entity → BundleStorages ts → (Entity → Option M) →
      Except E (BundleData ts) × BundleStorages ts
  | [], _, s, _ => (Except.ok PUnit.unit, s)
  | t :: ts, entity, s, ids =>
    match slotSave t s.1 entity ids with
    | Except.error err => (Except.error err, s)
    | Except.ok d =>
      match Components.save ts entity s.2 ids with
      | (Except.error err, s2) => (Except.error err, (s.1, s2))
      | (Except.ok p, s2) => (Except.ok (d, p), (s.1, s2))

/-- Embedding of `Components::load` (macro-generated for every arity): for
each element in tuple order, a `Some(a)` slot runs
`$b.insert(entity, $a::load(a, &mut ids)?)` — the codec `load` and its
`?`-conversion happen before the `insert` — and a `None` slot runs
`$b.remove(entity)`; the first failure aborts the loop, keeping the
storage mutations already performed. -/
def Components.load {M E : Type} :
    (ts : List (BundleElem M E)) → Entity → BundleData ts → BundleStorages ts →
      (M → Option Entity) → Except E Unit × BundleStorages ts
  | [], _, _, s, _ => (Except.ok (), s)
  | t :: ts, entity, p, s, ids =>
    match p.1 with
    | some a =>
      match Except.mapError t.toE (t.codec.load a ids) with
      | Except.error err => (Except.error err, s)
      | Except.ok c =>
        let r := Components.load ts entity p.2 s.2 ids
        (r.1, (s.1.insert entity c, r.2))
    | none =>
      let r := Components.load ts entity p.2 s.2 ids
      (r.1, (s.1.remove entity, r.2))

/-- Embedding of the `EntityData` struct: a stable marker paired with the
component-bundle payload (the marker type and its identifier type are
collapsed into the single lookup-key type `M`). -/
structure EntityData (M E : Type) (ts : List (BundleElem M E)) : Type where
  marker : M
  components : BundleData ts

/-- Modelled from the spec: the `save_entity_record` entry point is not
under `src/` (only the `EntityData` struct it builds is); per the design
document it "builds the marker/payload pair" from the bundle save. -/
def save_entity_record {M E : Type} (ts : List (BundleElem M E)) (entity : Entity)
    (marker : M) (s : BundleStorages ts) (ids : Entity → Option M) :
    Except E (EntityData M E ts) :=
  Except.map (fun p => EntityData.mk marker p) (Components.save ts entity s ids).1

/-- Modelled from the spec: the `load_entity_record` entry point is not
under `src/`; per the design document, "given a resolved entity for the
record's marker (obtained from the external allocator)", it delegates the
record's payload to the bundle load. -/
def load_entity_record {M E : Type} (ts : List (BundleElem M E))
    (record : EntityData M E ts) (entity_for_marker : Entity)
    (s : BundleStorages ts) (ids : M → Option Entity) :
    Except E Unit × BundleStorages ts :=
  Components.load ts entity_for_marker record.components s ids

/-- Boolean test that an `Except` value is an `Ok`. -/
def exceptOk {E A : Type} : Except E A → Bool
  | Except.ok _ => true
  | Except.error _ => false

/-- One element's `save` does not fail: either the entity has no component
of this type in the given storage, or its codec `save` succeeds. -/
def slotSaveOk {M E : Type} (t : BundleElem M E) (st : Storage t.C) (entity : Entity)
    (ids : Entity → Option M) : Bool :=
  match st.get entity with
  | some c => exceptOk (t.codec.save c ids)
  | none => true

/-- One payload slot's `load` does not fail: either the slot is `none`, or
its codec `load` succeeds on the carried data. -/
def slotLoadOk {M E : Type} (t : BundleElem M E) (slot : Option t.codec.Data)
    (ids : M → Option Entity) : Bool :=
  match slot with
  | some a => exceptOk (t.codec.load a ids)
  | none => true

/-- No codec `save` fails on this bundle: for every element whose storage
holds a component for the entity, that component's codec `save` succeeds. -/
def noSaveErrors {M E : Type} :
    (ts : List (BundleElem M E)) → Entity → BundleStorages ts → (Entity → Option M) → Bool
  | [], _, _, _ => true
  | t :: ts, entity, s, ids =>
    slotSaveOk t s.1 entity ids && noSaveErrors ts entity s.2 ids

/-- No codec `load` fails on this payload: every `some` slot decodes
successfully. -/
def noLoadErrors {M E : Type} :
    (ts : List (BundleElem M E)) → BundleData ts → (M → Option Entity) → Bool
  | [], _, _ => true
  | t :: ts, p, ids =>
    slotLoadOk t p.1 ids && noLoadErrors ts p.2 ids

/-- Slot-by-slot description of the payload a bundle save must produce:
slot `i` is `some` of the codec-saved value when the entity has a
component of type `i` in its storage, and `none` when it does not. -/
def savedPayloadMatches {M E : Type} :
    (ts : List (BundleElem M E)) → Entity → BundleStorages ts → (Entity → Option M) →
      BundleData ts → Prop
  | [], _, _, _, _ => True
  | t :: ts, entity, s, ids, p =>
    (match s.1.get entity with
     | some c => ∃ d, t.codec.save c ids = Except.ok d ∧ p.1 = some d
     | none => p.1 = none) ∧ savedPayloadMatches ts entity s.2 ids p.2

/-- Slot-by-slot description of the storages a bundle load must leave
behind when every codec succeeds: a `some a` slot replaces the entity's
component with the decoded value (overwriting any prior instance), a
`none` slot removes any existing instance, and nothing else changes. -/
def loadedStoragesMatch {M E : Type} :
    (ts : List (BundleElem M E)) → Entity → BundleData ts → (M → Option Entity) →
      BundleStorages ts → BundleStorages ts → Prop
  | [], _, _, _, s, s2 => s2 = s
  | t :: ts, entity, p, ids, s, s2 =>
    (match p.1 with
     | some a => ∃ c, t.codec.load a ids = Except.ok c ∧ s2.1 = s.1.insert entity c
     | none => s2.1 = s.1.remove entity) ∧
      loadedStoragesMatch ts entity p.2 ids s.2 s2.2

/-- Concatenation of payloads along concatenation of element lists. -/
def dataApp {M E : Type} :
    (ts1 ts2 : List (BundleElem M E)) → BundleData ts1 → BundleData ts2 →
      BundleData (ts1 ++ ts2)
  | [], _, _, p2 => p2
  | _ :: ts1, ts2, p1, p2 => (p1.1, dataApp ts1 ts2 p1.2 p2)

/-- Concatenation of storage tuples along concatenation of element lists. -/
def storagesApp {M E : Type} :
    (ts1 ts2 : List (BundleElem M E)) → BundleStorages ts1 → BundleStorages ts2 →
      BundleStorages (ts1 ++ ts2)
  | [], _, _, s2 => s2
  | _ :: ts1, ts2, s1, s2 => (s1.1, storagesApp ts1 ts2 s1.2 s2)

theorem exceptOk_eq_true {E A : Type} {x : Except E A} (h : exceptOk x = true) :
    ∃ a, x = Except.ok a := by
  cases x with
  | ok a => exact ⟨a, rfl⟩
  | error e => simp [exceptOk] at h

theorem slotSave_of_get_none {M E : Type} (t : BundleElem M E) (st : Storage t.C)
    (entity : Entity) (ids : Entity → Option M) (h : st.get entity = none) :
    slotSave t st entity ids = Except.ok none := by
  simp [slotSave, h, Except.mapError]

theorem slotSave_of_save_ok {M E : Type} (t : BundleElem M E) (st : Storage t.C)
    (entity : Entity) (ids : Entity → Option M) (c : t.C) (d : t.codec.Data)
    (h : st.get entity = some c) (h2 : t.codec.save c ids = Except.ok d) :
    slotSave t st entity ids = Except.ok (some d) := by
  simp [slotSave, h, h2, Except.mapError, Except.map]

theorem slotSave_of_save_error {M E : Type} (t : BundleElem M E) (st : Storage t.C)
    (entity : Entity) (ids : Entity → Option M) (c : t.C) (err : t.codec.Error)
    (h : st.get entity = some c) (h2 : t.codec.save c ids = Except.error err) :
    slotSave t st entity ids = Except.error (t.toE err) := by
  simp [slotSave, h, h2, Except.mapError, Except.map]

theorem slotSave_ok_of_slotSaveOk {M E : Type} (t : BundleElem M E) (st : Storage t.C)
    (entity : Entity) (ids : Entity → Option M) (h : slotSaveOk t st entity ids = true) :
    ∃ d, slotSave t st entity ids = Except.ok d := by
  cases hget : st.get entity with
  | none => exact ⟨none, slotSave_of_get_none t st entity ids hget⟩
  | some c =>
    rw [slotSaveOk, hget] at h
    obtain ⟨d, hd⟩ := exceptOk_eq_true h
    exact ⟨some d, slotSave_of_save_ok t st entity ids c d hget hd⟩

/-- Claim C5: the default pass-through codec's `save` returns `Ok` of the
component value itself and its `load` returns `Ok` of the given data
unchanged, for any lookup functions; hence `load (save c f) g = Ok c`, and
neither result depends on the lookup function. -/
theorem passthrough_roundtrip (M C : Type) (c : C) (f f2 : Entity → Option M)
    (g g2 : M → Option Entity) :
    (passthroughCodec M C).save c f = Except.ok c ∧
    (passthroughCodec M C).load c g = Except.ok c ∧
    Except.bind ((passthroughCodec M C).save c f)
        (fun d => (passthroughCodec M C).load d g) = Except.ok c ∧
    (passthroughCodec M C).save c f = (passthroughCodec M C).save c f2 ∧
    (passthroughCodec M C).load c g = (passthroughCodec M C).load c g2 :=
  ⟨rfl, rfl, rfl, rfl, rfl⟩

/-- Claim C6: the default pass-through codec can never fail: its
associated error type is uninhabited, and its `save` and `load` return
`Ok` on every input. -/
theorem passthrough_never_fails (M C : Type) (c : C) (f : Entity → Option M)
    (g : M → Option Entity) :
    ((passthroughCodec M C).Error → False) ∧
    exceptOk ((passthroughCodec M C).save c f) = true ∧
    exceptOk ((passthroughCodec M C).load c g) = true :=
  ⟨fun err => Empty.elim err, rfl, rfl⟩

/-- Claim C7: bundle save performs no storage mutation: for every type
list, entity, storages and lookup — including runs that fail — the
storages after `Components.save` are exactly the storages before. -/
theorem save_no_storage_mutation {M E : Type} (ts : List (BundleElem M E))
    (entity : Entity) (s : BundleStorages ts) (ids : Entity → Option M) :
    (Components.save ts entity s ids).2 = s := by
  induction ts with
  | nil => rfl
  | cons t ts ih =>
    simp only [Components.save]
    cases hslot : slotSave t s.1 entity ids with
    | error err => rfl
    | ok d =>
      cases hrec : Components.save ts entity s.2 ids with
      | mk r s2 =>
        have h2 : s2 = s.2 := by
          have := ih s.2
          rw [hrec] at this
          exact this
        cases r with
        | error err => simp [h2]
        | ok p => simp [h2]

/-- Claim C8: for the zero-length component type list, bundle save always
succeeds producing the empty payload and bundle load always succeeds
consuming the empty payload while leaving the storages unchanged, for
every entity and every lookup function. -/
theorem empty_bundle_noop {M E : Type} (entity : Entity)
    (s : BundleStorages ([] : List (BundleElem M E)))
    (p : BundleData ([] : List (BundleElem M E)))
    (idsS : Entity → Option M) (idsL : M → Option Entity) :
    Components.save [] entity s idsS = (Except.ok PUnit.unit, s) ∧
    Components.load [] entity p s idsL = (Except.ok (), s) :=
  ⟨rfl, rfl⟩

/-- Claim C10: when an element's codec `load` fails on a `some` slot at
the head of the remaining list, the bundle load returns the converted
error and that element's own storage — like every later one — is
untouched: the codec runs and its error propagates before any `insert`. -/
theorem load_error_failing_slot_untouched {M E : Type} (t : BundleElem M E)
    (ts : List (BundleElem M E)) (entity : Entity) (a : t.codec.Data)
    (p : BundleData ts) (st : Storage t.C) (s : BundleStorages ts)
    (ids : M → Option Entity) (err : t.codec.Error)
    (h : t.codec.load a ids = Except.error err) :
    Components.load (t :: ts) entity (some a, p) (st, s) ids
      = (Except.error (t.toE err), (st, s)) := by
  simp only [Components.load, h, Except.mapError]

/-- Claim C1: when no codec `save` fails, bundle save returns `Ok` of a
payload whose slot `i`, in type-list order, is `some` of the codec-saved
value of the entity's component of type `i` when present in its read
storage, and `none` when absent. -/
theorem bundle_save_ok_payload {M E : Type} (ts : List (BundleElem M E))
    (entity : Entity) (s : BundleStorages ts) (ids : Entity → Option M)
    (h : noSaveErrors ts entity s ids = true) :
    ∃ p, (Components.save ts entity s ids).1 = Except.ok p ∧
      savedPayloadMatches ts entity s ids p := by
  induction ts with
  | nil => exact ⟨PUnit.unit, rfl, trivial⟩
  | cons t ts ih =>
    rw [noSaveErrors, Bool.and_eq_true] at h
    obtain ⟨h1, h2⟩ := h
    obtain ⟨p, hp, hm⟩ := ih s.2 h2
    cases hrec : Components.save ts entity s.2 ids with
    | mk r s2 =>
      rw [hrec] at hp
      have hr : r = Except.ok p := hp
      subst hr
      cases hget : s.1.get entity with
      | none =>
        have hslot := slotSave_of_get_none t s.1 entity ids hget
        refine ⟨(none, p), ?_, ?_⟩
        · simp only [Components.save, hslot, hrec]
        · rw [savedPayloadMatches, hget]
          exact ⟨rfl, hm⟩
      | some c =>
        rw [slotSaveOk, hget] at h1
        obtain ⟨d, hd⟩ := exceptOk_eq_true h1
        have hslot := slotSave_of_save_ok t s.1 entity ids c d hget hd
        refine ⟨(some d, p), ?_, ?_⟩
        · simp only [Components.save, hslot, hrec]
        · rw [savedPayloadMatches, hget]
          exact ⟨⟨d, hd, rfl⟩, hm⟩

/-- Claim C2: bundle load processes the payload slots in type-list order,
a `some` slot decoding and inserting into the entity's write storage
(overwriting any prior instance) and a `none` slot removing any existing
instance; when every codec `load` succeeds the operation returns `Ok(())`
and the final storages are exactly the slot-by-slot description. -/
theorem bundle_load_ok_storages {M E : Type} (ts : List (BundleElem M E))
    (entity : Entity) (p : BundleData ts) (s : BundleStorages ts)
    (ids : M → Option Entity) (h : noLoadErrors ts p ids = true) :
    (Components.load ts entity p s ids).1 = Except.ok () ∧
      loadedStoragesMatch ts entity p ids s (Components.load ts entity p s ids).2 := by
  induction ts with
  | nil => exact ⟨rfl, rfl⟩
  | cons t ts ih =>
    rw [noLoadErrors, Bool.and_eq_true] at h
    obtain ⟨h1, h2⟩ := h
    obtain ⟨ihr, ihm⟩ := ih p.2 s.2 h2
    cases hslot : p.1 with
    | none =>
      have hload2 : (Components.load (t :: ts) entity p s ids).2
          = (s.1.remove entity, (Components.load ts entity p.2 s.2 ids).2) := by
        simp only [Components.load, hslot]
      constructor
      · simp only [Components.load, hslot]
        exact ihr
      · rw [hload2, loadedStoragesMatch, hslot]
        exact ⟨rfl, ihm⟩
    | some a =>
      rw [hslot] at h1
      rw [slotLoadOk] at h1
      obtain ⟨c, hc⟩ := exceptOk_eq_true h1
      have hload2 : (Components.load (t :: ts) entity p s ids).2
          = (s.1.insert entity c, (Components.load ts entity p.2 s.2 ids).2) := by
        simp only [Components.load, hslot, hc, Except.mapError]
      constructor
      · simp only [Components.load, hslot, hc, Except.mapError]
        exact ihr
      · rw [hload2, loadedStoragesMatch, hslot]
        exact ⟨⟨c, hc, rfl⟩, ihm⟩

/-- Claim C3: if an element's codec `save` fails, bundle save stops at the
first failing element left-to-right, returning that error converted into
the shared error type `E`; the only output is that error, so payloads
computed for earlier elements are discarded and not observable. -/
theorem bundle_save_fail_fast {M E : Type} (ts1 ts2 : List (BundleElem M E))
    (t : BundleElem M E) (entity : Entity) (s1 : BundleStorages ts1)
    (st : Storage t.C) (s2 : BundleStorages ts2) (ids : Entity → Option M)
    (c : t.C) (err : t.codec.Error)
    (h1 : noSaveErrors ts1 entity s1 ids = true)
    (hc : st.get entity = some c)
    (herr : t.codec.save c ids = Except.error err) :
    (Components.save (ts1 ++ t :: ts2) entity
        (storagesApp ts1 (t :: ts2) s1 (st, s2)) ids).1
      = Except.error (t.toE err) := by
  induction ts1 with
  | nil =>
    have hslot := slotSave_of_save_error t st entity ids c err hc herr
    simp only [List.nil_append, storagesApp, Components.save, hslot]
  | cons u ts1 ih =>
    rw [noSaveErrors, Bool.and_eq_true] at h1
    obtain ⟨hu, hrest⟩ := h1
    obtain ⟨d, hd⟩ := slotSave_ok_of_slotSaveOk u s1.1 entity ids hu
    have ihe := ih s1.2 hrest
    simp only [List.cons_append, storagesApp, Components.save]
    cases hrec : Components.save (ts1 ++ t :: ts2) entity
        (storagesApp ts1 (t :: ts2) s1.2 (st, s2)) ids with
    | mk r srest =>
      rw [hrec] at ihe
      cases r with
      | error e2 =>
        have he2 : e2 = t.toE err := by simpa using ihe
        subst he2
        simp only [hd]
      | ok p => exact absurd ihe (by simp)

/-- Claim C4: if an element's codec `load` fails, bundle load returns that
error (converted into `E`) immediately; the inserts and removals already
performed for every earlier element remain in place, and the storages of
the failing element and of every later element are untouched. -/
theorem bundle_load_fail_partial {M E : Type} (ts1 ts2 : List (BundleElem M E))
    (t : BundleElem M E) (entity : Entity) (p1 : BundleData ts1) (a : t.codec.Data)
    (p2 : BundleData ts2) (s1 : BundleStorages ts1) (st : Storage t.C)
    (s2 : BundleStorages ts2) (ids : M → Option Entity) (err : t.codec.Error)
    (h1 : noLoadErrors ts1 p1 ids = true)
    (herr : t.codec.load a ids = Except.error err) :
    Components.load (ts1 ++ t :: ts2) entity
        (dataApp ts1 (t :: ts2) p1 (some a, p2))
        (storagesApp ts1 (t :: ts2) s1 (st, s2)) ids
      = (Except.error (t.toE err),
         storagesApp ts1 (t :: ts2) (Components.load ts1 entity p1 s1 ids).2 (st, s2)) := by
  induction ts1 with
  | nil =>
    simp only [List.nil_append, dataApp, storagesApp, Components.load, herr,
      Except.mapError]
  | cons u ts1 ih =>
    obtain ⟨q, p1x⟩ := p1
    obtain ⟨su, s1x⟩ := s1
    cases q with
    | none =>
      simp only [noLoadErrors, slotLoadOk, Bool.and_eq_true] at h1
      have ihe := ih p1x s1x h1.2
      simp only [List.cons_append, dataApp, storagesApp, Components.load]
      simp only [List.append_eq, ihe]
    | some b =>
      simp only [noLoadErrors, slotLoadOk, Bool.and_eq_true] at h1
      obtain ⟨cb, hcb⟩ := exceptOk_eq_true h1.1
      have ihe := ih p1x s1x h1.2
      simp only [List.cons_append, dataApp, storagesApp, Components.load, hcb,
        Except.mapError]
      simp only [List.append_eq, ihe]

/-- Claim C9: `save_entity_record` builds an `EntityData` record pairing
the given marker with the payload produced by bundle save, and
`load_entity_record` delegates the record's payload to bundle load for
the resolved entity. -/
theorem entity_record_entry_points {M E : Type} (ts : List (BundleElem M E))
    (entity : Entity) (marker : M) (s : BundleStorages ts) (ids : Entity → Option M)
    (p : BundleData ts)
    (h : (Components.save ts entity s ids).1 = Except.ok p) :
    save_entity_record ts entity marker s ids = Except.ok (EntityData.mk marker p) ∧
    ∀ (record : EntityData M E ts) (resolved : Entity) (s2 : BundleStorages ts)
      (ids2 : M → Option Entity),
      load_entity_record ts record resolved s2 ids2
        = Components.load ts resolved record.components s2 ids2 := by
  constructor
  · rw [save_entity_record, h]
    rfl
  · intro record resolved s2 ids2
    rfl

/-- A concrete codec over marker type `Nat` and bundle error `String`,
used to exercise the theorems: `save` adds one but rejects the component
value `7`; `load` is the identity but rejects the data value `9`. -/
def natCodec : SaveLoadComponent Nat Nat where
  Data := Nat
  Error := String
  save := fun c _ids => if c = 7 then Except.error "save failed" else Except.ok (c + 1)
  load := fun d _ids => if d = 9 then Except.error "load failed" else Except.ok d

/-- A concrete bundle element wrapping `natCodec`, with the identity
error conversion. -/
def natElem : BundleElem Nat String where
  C := Nat
  codec := natCodec
  toE := id

/-- A storage holding component value `3` for entity `0` only. -/
def storeThree : Storage Nat := fun e => if e = 0 then some 3 else none

/-- A storage holding component value `7` (rejected by `natCodec.save`)
for entity `0` only. -/
def storeSeven : Storage Nat := fun e => if e = 0 then some 7 else none

/-- A storage holding no component for any entity. -/
def storeEmpty : Storage Nat := fun _ => none

/-- An entity-to-marker lookup that resolves nothing. -/
def lookupNone : Entity → Option Nat := fun _ => none

/-- A marker-to-entity lookup that resolves nothing. -/
def lookupBack : Nat → Option Entity := fun _ => none

/-- Witness for the bundle-save payload theorem at a concrete two-element
bundle: the first element's component is present, the second absent, and
no codec fails. -/
theorem bundle_save_ok_payload_witness :
    noSaveErrors [natElem, natElem] 0 (storeThree, storeEmpty, PUnit.unit)
        lookupNone = true ∧
    (∃ p, (Components.save [natElem, natElem] 0 (storeThree, storeEmpty, PUnit.unit)
          lookupNone).1 = Except.ok p ∧
      savedPayloadMatches [natElem, natElem] 0 (storeThree, storeEmpty, PUnit.unit)
        lookupNone p) :=
  ⟨rfl, bundle_save_ok_payload [natElem, natElem] 0
    (storeThree, storeEmpty, PUnit.unit) lookupNone rfl⟩

/-- Witness for the bundle-load storages theorem at a concrete
two-element bundle: a `some` slot and a `none` slot, with no codec
failure. -/
theorem bundle_load_ok_storages_witness :
    noLoadErrors [natElem, natElem] (some (5 : Nat), none, PUnit.unit) lookupBack = true ∧
    ((Components.load [natElem, natElem] 0 (some (5 : Nat), none, PUnit.unit)
          (storeThree, storeEmpty, PUnit.unit) lookupBack).1 = Except.ok () ∧
      loadedStoragesMatch [natElem, natElem] 0 (some (5 : Nat), none, PUnit.unit) lookupBack
        (storeThree, storeEmpty, PUnit.unit)
        (Components.load [natElem, natElem] 0 (some (5 : Nat), none, PUnit.unit)
          (storeThree, storeEmpty, PUnit.unit) lookupBack).2) :=
  ⟨rfl, bundle_load_ok_storages [natElem, natElem] 0 (some (5 : Nat), none, PUnit.unit)
    (storeThree, storeEmpty, PUnit.unit) lookupBack rfl⟩

/-- Witness for the save fail-fast theorem on a concrete three-element
bundle whose middle element holds the component value `7`, rejected by
its codec's `save`. -/
theorem bundle_save_fail_fast_witness :
    noSaveErrors [natElem] 0 (storeThree, PUnit.unit) lookupNone = true ∧
    storeSeven.get 0 = some 7 ∧
    natElem.codec.save (7 : Nat) lookupNone = Except.error "save failed" ∧
    (Components.save ([natElem] ++ natElem :: [natElem]) 0
        (storagesApp [natElem] (natElem :: [natElem]) (storeThree, PUnit.unit)
          (storeSeven, storeEmpty, PUnit.unit)) lookupNone).1
      = Except.error (natElem.toE "save failed") :=
  ⟨rfl, rfl, rfl, bundle_save_fail_fast [natElem] [natElem] natElem 0
    (storeThree, PUnit.unit) storeSeven (storeEmpty, PUnit.unit) lookupNone (7 : Nat)
    "save failed" rfl rfl rfl⟩

/-- Witness for the partial-load theorem on a concrete three-element
bundle whose middle slot carries the data value `9`, rejected by its
codec's `load`. -/
theorem bundle_load_fail_partial_witness :
    noLoadErrors [natElem] (some (5 : Nat), PUnit.unit) lookupBack = true ∧
    natElem.codec.load (9 : Nat) lookupBack = Except.error "load failed" ∧
    Components.load ([natElem] ++ natElem :: [natElem]) 0
        (dataApp [natElem] (natElem :: [natElem]) (some (5 : Nat), PUnit.unit)
          (some (9 : Nat), none, PUnit.unit))
        (storagesApp [natElem] (natElem :: [natElem]) (storeThree, PUnit.unit)
          (storeSeven, storeEmpty, PUnit.unit)) lookupBack
      = (Except.error (natElem.toE "load failed"),
         storagesApp [natElem] (natElem :: [natElem])
           (Components.load [natElem] 0 (some (5 : Nat), PUnit.unit) (storeThree, PUnit.unit)
             lookupBack).2
           (storeSeven, storeEmpty, PUnit.unit)) :=
  ⟨rfl, rfl, bundle_load_fail_partial [natElem] [natElem] natElem 0
    (some (5 : Nat), PUnit.unit) (9 : Nat) (none, PUnit.unit) (storeThree, PUnit.unit) storeSeven
    (storeEmpty, PUnit.unit) lookupBack "load failed" rfl rfl⟩

/-- Witness for the entity-record entry-point theorem at a concrete
one-element bundle with marker `42`. -/
theorem entity_record_entry_points_witness :
    (Components.save [natElem] 0 (storeThree, PUnit.unit) lookupNone).1
        = Except.ok ((some (4 : Nat), PUnit.unit) : BundleData [natElem]) ∧
    (save_entity_record [natElem] 0 42 (storeThree, PUnit.unit) lookupNone
        = Except.ok (EntityData.mk 42 ((some (4 : Nat), PUnit.unit) : BundleData [natElem])) ∧
      ∀ (record : EntityData Nat String [natElem]) (resolved : Entity)
        (s2 : BundleStorages [natElem]) (ids2 : Nat → Option Entity),
        load_entity_record [natElem] record resolved s2 ids2
          = Components.load [natElem] resolved record.components s2 ids2) :=
  ⟨rfl, entity_record_entry_points [natElem] 0 42 (storeThree, PUnit.unit)
    lookupNone (some (4 : Nat), PUnit.unit) rfl⟩

/-- Witness for the failing-slot theorem on a concrete one-element bundle
whose only slot carries the rejected data value `9`: the slot's own
storage is returned untouched. -/
theorem load_error_failing_slot_untouched_witness :
    natElem.codec.load (9 : Nat) lookupBack = Except.error "load failed" ∧
    Components.load (natElem :: []) 0 (some (9 : Nat), PUnit.unit) (storeThree, PUnit.unit)
        lookupBack
      = (Except.error (natElem.toE "load failed"), (storeThree, PUnit.unit)) :=
  ⟨rfl, load_error_failing_slot_untouched natElem [] 0 (9 : Nat) PUnit.unit storeThree
    PUnit.unit lookupBack "load failed" rfl⟩
